import Mathlib

/-
Verification of the repository's database examples.

Modules embedded:
- namespace Blog: src/sql/gorm.go — the User/Post/Comment data model, the
  GORM lifecycle hooks Post.AfterCreate (increments the owning user's
  article_count) and Comment.AfterDelete (recomputes the owning post's
  comment_status from a fresh count), and the transactional create/delete
  operations that invoke them. GORM runs a create/delete statement and its
  hooks inside one transaction and rolls the whole transaction back when a
  hook returns an error; that documented library behaviour is part of the
  embedding of db.Create / db.Delete.
- namespace Emp: src/unnamed/part_000 — the sqlx employees example: the
  department lookup, the ORDER BY salary DESC LIMIT 1 query and its
  ties-aware MAX-subquery variant.
- namespace Conn: the environment-variable default-filling block shared by
  both initDB functions and the DSN it produces.

The database is modelled as lists of rows; SQL filters, counts and updates
become List.filter / List.length / List.map over those rows.
-/

namespace Blog

/-- Row of the users table (gorm.go, type User). Timestamps and the loaded
Posts association are omitted; ArticleCount is the derived counter kept by
Post.AfterCreate (column article_count, default 0). -/
structure User where
  ID : Nat
  Name : String
  Email : String
  ArticleCount : Int
  deriving Repr, DecidableEq

/-- Row of the posts table (gorm.go, type Post). CommentStatus is the derived
column comment_status, default "无评论" (NoComments); "有评论" is HasComments. -/
structure Post where
  ID : Nat
  Title : String
  Content : String
  CommentStatus : String
  UserID : Nat
  deriving Repr, DecidableEq

/-- Row of the comments table (gorm.go, type Comment). -/
structure Comment where
  ID : Nat
  Content : String
  PostID : Nat
  UserID : Nat
  deriving Repr, DecidableEq

/-- State of the three tables. -/
structure DB where
  users : List User
  posts : List Post
  comments : List Comment
  deriving Repr, DecidableEq

/-- Statement run by Post.AfterCreate: UPDATE users SET article_count =
article_count + 1 WHERE id = uid. The result is the updated state together
with the number of rows affected, or a backend error; the fail flag injects
such a backend error (the spec's simulated trigger failure). An update that
matches zero rows succeeds with zero rows affected. -/
def updateArticleCountStmt (fail : Bool) (db : DB) (uid : Nat) :
    Except String (DB × Nat) :=
  if fail then
    Except.error "article_count update failed"
  else
    Except.ok
      ({ db with
         users := db.users.map fun u =>
           if u.ID = uid then { u with ArticleCount := u.ArticleCount + 1 } else u },
       (db.users.filter fun u => u.ID = uid).length)

/-- Hook Post.AfterCreate (gorm.go lines 289-300): runs the article_count
update for the post's UserID against the transaction state and propagates the
update's error, if any. -/
def Post.AfterCreate (fail : Bool) (p : Post) (tx : DB) : Except String DB :=
  match updateArticleCountStmt fail tx p.UserID with
  | Except.error e => Except.error e
  | Except.ok (tx2, _) => Except.ok tx2

/-- Operation db.Create(&post) on the path where the insert statement itself
succeeds: the post row is inserted and Post.AfterCreate runs in the same
transaction. On hook success the transaction commits; on hook error the
whole transaction rolls back, so the returned state is the original database
and the error is surfaced. The full operation, createPostFK below, adds the
foreign-key check on posts.user_id that the migrated schema enforces at the
insert and agrees with this one whenever the owning user exists. -/
def createPost (fail : Bool) (db : DB) (p : Post) : DB × Option String :=
  let tx : DB := { db with posts := db.posts ++ [p] }
  match Post.AfterCreate fail p tx with
  | Except.ok tx2 => (tx2, none)
  | Except.error e => (db, some e)

/-- Check backing the posts.user_id foreign-key constraint: main runs
AutoMigrate with the default gorm.Config (only Logger is set), so GORM v2
creates the constraint posts.user_id REFERENCES users(id) from the
belongs-to association, and the backend enforces it on insert. -/
def userExists (db : DB) (uid : Nat) : Bool :=
  db.users.any fun u => u.ID = uid

/-- Statement INSERT INTO posts ... under the migrated schema: the insert
fails with the backend's constraint error when no user row matches the
post's UserID, and otherwise appends the row. -/
def insertPostStmt (db : DB) (p : Post) : Except String DB :=
  if userExists db p.UserID then
    Except.ok { db with posts := db.posts ++ [p] }
  else
    Except.error "Cannot add or update a child row: a foreign key constraint fails"

/-- Operation db.Create(&post) including the referential-integrity check the
migrated schema enforces: the insert statement runs first — failing with a
constraint error and rolling back when the UserID is dangling — and then
Post.AfterCreate runs in the same transaction; a hook error also rolls the
whole transaction back. Whenever the owner exists this agrees with
createPost, which models only the insert-succeeded path. -/
def createPostFK (fail : Bool) (db : DB) (p : Post) : DB × Option String :=
  match insertPostStmt db p with
  | Except.error e => (db, some e)
  | Except.ok tx =>
    match Post.AfterCreate fail p tx with
    | Except.ok tx2 => (tx2, none)
    | Except.error e => (db, some e)

/-- Count query of the AfterDelete hook: SELECT COUNT(*) FROM comments WHERE
post_id = pid. -/
def commentCountFor (db : DB) (pid : Nat) : Nat :=
  (db.comments.filter fun c => c.PostID = pid).length

/-- Hook Comment.AfterDelete (gorm.go lines 303-323): takes a fresh count of
the comment rows still referencing c.PostID in the transaction state, picks
"有评论" when the count is nonzero and "无评论" when it is zero, and updates
comment_status on the post rows whose id equals c.PostID. -/
def Comment.AfterDelete (c : Comment) (tx : DB) : Except String DB :=
  let commentCount := commentCountFor tx c.PostID
  let newStatus := if commentCount = 0 then "无评论" else "有评论"
  Except.ok
    { tx with
      posts := tx.posts.map fun p =>
        if p.ID = c.PostID then { p with CommentStatus := newStatus } else p }

/-- Operation db.Delete(&comment): removes the comment row by primary key and
runs Comment.AfterDelete in the same transaction; commit on hook success,
full rollback on hook error. -/
def deleteComment (db : DB) (c : Comment) : DB × Option String :=
  let tx : DB := { db with comments := db.comments.filter fun c2 => c2.ID ≠ c.ID }
  match Comment.AfterDelete c tx with
  | Except.ok tx2 => (tx2, none)
  | Except.error e => (db, some e)

/-- Operation db.Create(&comment): a plain insert — the Comment model defines
no creation hook in gorm.go. -/
def createComment (db : DB) (c : Comment) : DB :=
  { db with comments := db.comments ++ [c] }

/-- Operation db.Delete(&post): a plain delete by primary key — Post defines
no deletion hook in gorm.go. -/
def deletePost (db : DB) (pid : Nat) : DB :=
  { db with posts := db.posts.filter fun p => p.ID ≠ pid }

/-- Operation db.Delete(&user): a plain delete by primary key — User defines
no hooks in gorm.go. -/
def deleteUser (db : DB) (uid : Nat) : DB :=
  { db with users := db.users.filter fun u => u.ID ≠ uid }

/-- From-scratch recount: number of post rows whose user_id equals uid. -/
def postCountFor (db : DB) (uid : Nat) : Nat :=
  (db.posts.filter fun p => p.UserID = uid).length

/-- Value of article_count on the user row with the given id, when present. -/
def userArticleCount (db : DB) (uid : Nat) : Option Int :=
  (db.users.find? fun u => u.ID = uid).map User.ArticleCount

/-- Sequence of committed post creations, no injected backend failures. -/
def createPosts (db : DB) (ps : List Post) : DB :=
  ps.foldl (fun d p => (createPost false d p).1) db

/-- Invariant of spec section 3: every user's article_count equals the number
of post rows referencing that user. -/
abbrev userCountsConsistent (db : DB) : Prop :=
  ∀ u ∈ db.users, u.ArticleCount = (postCountFor db u.ID : Int)

/-- Fixture: user A (id 1) with article_count 0 and no rows yet. -/
def exUserA : User := { ID := 1, Name := "A", Email := "a@example.com", ArticleCount := 0 }

/-- Fixture: post P1 (id 1) owned by user 1, freshly inserted with the
default comment_status. -/
def exPostA : Post :=
  { ID := 1, Title := "P1", Content := "body", CommentStatus := "无评论", UserID := 1 }

/-- Fixture: comment C1 (id 1) on post 1 by user 1. -/
def exComment1 : Comment := { ID := 1, Content := "C1", PostID := 1, UserID := 1 }

/-- Fixture: database holding only user A. -/
def exDB0 : DB := { users := [exUserA], posts := [], comments := [] }

/-- Fixture: database holding user A and post P1, no comments. -/
def exDB1 : DB := { users := [exUserA], posts := [exPostA], comments := [] }

/-- Fixture: a second comment (id 2) on post 1. -/
def exComment2 : Comment := { ID := 2, Content := "C2", PostID := 1, UserID := 1 }

/-- Fixture: a second post (id 2) owned by user 1. -/
def exPostB : Post :=
  { ID := 2, Title := "P2", Content := "body2", CommentStatus := "无评论", UserID := 1 }

/-- Fixture: a post owned by a user id that matches no user row. -/
def exPostDangling : Post :=
  { ID := 7, Title := "orphan", Content := "x", CommentStatus := "无评论", UserID := 99 }

/-- Fixture: database with user A, post P1 and two comments on it. -/
def exDB2 : DB := { users := [exUserA], posts := [exPostA], comments := [exComment1, exComment2] }

end Blog

namespace Emp

/-- Row of the employees table (src/unnamed/part_000, type Employee). -/
structure Employee where
  ID : Int
  Name : String
  Department : String
  Salary : Int
  deriving Repr, DecidableEq

/-- Query getEmployeesByDepartment: SELECT ... FROM employees WHERE
department = ?; the source turns a zero-row result into an error with its
len(employees) == 0 check instead of returning the empty list. -/
def getEmployeesByDepartment (emps : List Employee) (department : String) :
    Except String (List Employee) :=
  let employees := emps.filter fun e => e.Department = department
  if employees.length = 0 then
    Except.error ("部门 " ++ department ++ " 没有员工")
  else
    Except.ok employees

/-- Comparison used by ORDER BY salary DESC: a row sorts before another when
its salary is at least the other's; the backend orders ties arbitrarily and
the model fixes one such order with a stable merge sort. -/
def salaryDescLe (a b : Employee) : Bool := b.Salary ≤ a.Salary

/-- Query getHighestPaidEmployee: SELECT ... ORDER BY salary DESC LIMIT 1 via
db.Get, which reports the no-rows error on an empty table. -/
def getHighestPaidEmployee (emps : List Employee) : Except String Employee :=
  match (emps.mergeSort salaryDescLe).head? with
  | some employee => Except.ok employee
  | none => Except.error "查询最高薪资员工失败: sql: no rows in result set"

/-- Subquery SELECT MAX(salary) FROM employees: NULL (none) on an empty
table. -/
def maxSalary (emps : List Employee) : Option Int := (emps.map Employee.Salary).max?

/-- Query getAllHighestPaidEmployees: SELECT ... WHERE salary = (SELECT
MAX(salary) FROM employees); on an empty table the NULL comparison matches no
rows and db.Select returns the empty list without an error. -/
def getAllHighestPaidEmployees (emps : List Employee) : List Employee :=
  match maxSalary emps with
  | none => []
  | some m => emps.filter fun e => e.Salary = m

/-- Fixture: two employees tied for the maximum salary and one below. -/
def exEmps : List Employee :=
  [ { ID := 1, Name := "甲", Department := "技术部", Salary := 9000 },
    { ID := 2, Name := "乙", Department := "技术部", Salary := 9000 },
    { ID := 3, Name := "丙", Department := "销售部", Salary := 5000 } ]

end Emp

namespace Conn

/-- Environment assignment of the five connection variables; os.Getenv
yields the empty string for an unset variable. -/
structure Env where
  DB_USER : String
  DB_PASS : String
  DB_HOST : String
  DB_PORT : String
  DB_NAME : String
  deriving Repr, DecidableEq

/-- Connection parameters after the default-filling block of initDB. -/
structure Config where
  dbUser : String
  dbPass : String
  dbHost : String
  dbPort : String
  dbName : String
  deriving Repr, DecidableEq

/-- Default-filling block shared verbatim by both initDB functions (gorm.go
lines 120-145 and the sqlx file); the caller passes the file's fixed
database-name default (blog_db or company_db). The first branch of the
source resets BOTH user and password whenever EITHER is empty. -/
def resolveConfig (dbNameDefault : String) (env : Env) : Config :=
  let userPass :=
    if env.DB_USER = "" ∨ env.DB_PASS = "" then ("root", "password")
    else (env.DB_USER, env.DB_PASS)
  { dbUser := userPass.1
    dbPass := userPass.2
    dbHost := if env.DB_HOST = "" then "localhost" else env.DB_HOST
    dbPort := if env.DB_PORT = "" then "3306" else env.DB_PORT
    dbName := if env.DB_NAME = "" then dbNameDefault else env.DB_NAME }

/-- DSN built by gorm.go initDB from the resolved parameters. -/
def gormDSN (c : Config) : String :=
  c.dbUser ++ ":" ++ c.dbPass ++ "@tcp(" ++ c.dbHost ++ ":" ++ c.dbPort ++ ")/" ++
    c.dbName ++ "?charset=utf8mb4&parseTime=True&loc=Local"

/-- Connection string produced by gorm.go initDB for a given environment. -/
def initDBDsn (env : Env) : String := gormDSN (resolveConfig "blog_db" env)

end Conn

namespace Blog

/-- Unfolding of a committed (no injected failure) post creation. -/
theorem createPost_ok_unfold (db : DB) (p : Post) :
    createPost false db p =
      ({ users := db.users.map fun u =>
           if u.ID = p.UserID then { u with ArticleCount := u.ArticleCount + 1 } else u,
         posts := db.posts ++ [p],
         comments := db.comments }, none) := rfl

/-- Unfolding of a committed comment deletion: the comment row is removed and
every post row whose id is the comment's PostID gets the recomputed status. -/
theorem deleteComment_unfold (db : DB) (c : Comment) :
    deleteComment db c =
      ({ users := db.users,
         posts := db.posts.map fun p =>
           if p.ID = c.PostID then
             { p with CommentStatus :=
                 if ((db.comments.filter fun c2 => c2.ID ≠ c.ID).filter
                       fun c3 => c3.PostID = c.PostID).length = 0
                 then "无评论" else "有评论" }
           else p,
         comments := db.comments.filter fun c2 => c2.ID ≠ c.ID }, none) := rfl

/-- Creating a post adds one to the recount of its owner and leaves every
other user's recount unchanged. -/
theorem postCountFor_createPost (db : DB) (p : Post) (uid : Nat) :
    postCountFor (createPost false db p).1 uid =
      postCountFor db uid + (if p.UserID = uid then 1 else 0) := by
  rw [createPost_ok_unfold]
  simp only [postCountFor, List.filter_append, List.length_append]
  by_cases h : p.UserID = uid
  · simp [h]
  · simp [h]

/-- Preservation: a committed post creation keeps every user's article_count
equal to the from-scratch recount. -/
theorem userCountsConsistent_createPost (db : DB) (p : Post)
    (h : userCountsConsistent db) : userCountsConsistent (createPost false db p).1 := by
  intro u hu
  rw [createPost_ok_unfold] at hu
  simp only [List.mem_map] at hu
  obtain ⟨v, hv, rfl⟩ := hu
  rw [postCountFor_createPost]
  have hv2 := h v hv
  by_cases hid : v.ID = p.UserID
  · rw [if_pos hid]
    show v.ArticleCount + 1 = ((postCountFor db v.ID + if p.UserID = v.ID then 1 else 0 : Nat) : Int)
    rw [if_pos hid.symm, hv2]
    push_cast
    ring
  · rw [if_neg hid]
    rw [if_neg fun hh => hid hh.symm]
    simpa using hv2

/-- Agreement: whenever the owning user exists, the full operation with the
foreign-key check coincides with the insert-succeeded model createPost. -/
theorem createPostFK_eq_createPost (fail : Bool) (db : DB) (p : Post)
    (h : userExists db p.UserID = true) :
    createPostFK fail db p = createPost fail db p := by
  simp only [createPostFK, insertPostStmt, h, if_true]
  rfl

end Blog

/-- C3: when the article_count update triggered by a post creation fails, the
whole transaction rolls back — the returned state is exactly the prior
database (the post row is absent, no user's article_count changed) and the
hook's error is surfaced rather than swallowed. -/
theorem createPost_hook_failure_rolls_back (db : Blog.DB) (p : Blog.Post) :
    Blog.createPost true db p = (db, some "article_count update failed") := rfl

/-- C4: a successful post creation commits the inserted post row together
with the hook's counter update: exactly the users whose id equals the new
post's UserID get article_count incremented by one, every other user row is
unchanged, and no error is reported. -/
theorem createPost_increments_owner_count (db : Blog.DB) (p : Blog.Post) :
    (Blog.createPost false db p).1.posts = db.posts ++ [p] ∧
    (Blog.createPost false db p).1.users =
      (db.users.map fun u =>
        if u.ID = p.UserID then { u with ArticleCount := u.ArticleCount + 1 } else u) ∧
    (Blog.createPost false db p).2 = none :=
  ⟨rfl, rfl, rfl⟩

/-- C1: after a comment deletion, the post row the deleted comment referenced
carries exactly the status the hook recomputed from the fresh count of the
remaining comments on that post: HasComments (有评论) when the count is
positive, NoComments (无评论) when it is zero — so the status equals
HasComments iff at least one comment for that post remains. Since the state
db is arbitrary, this holds after every individual deletion of any sequence
of deletions: deleting the last comment yields NoComments and deleting a
non-last comment yields HasComments. -/
theorem deleteComment_status_matches_count (db : Blog.DB) (c : Blog.Comment)
    (p : Blog.Post) (hp : p ∈ (Blog.deleteComment db c).1.posts)
    (hid : p.ID = c.PostID) :
    p.CommentStatus =
      (if Blog.commentCountFor (Blog.deleteComment db c).1 c.PostID = 0
       then "无评论" else "有评论") ∧
    (p.CommentStatus = "有评论" ↔
      0 < Blog.commentCountFor (Blog.deleteComment db c).1 c.PostID) := by
  rw [Blog.deleteComment_unfold] at hp ⊢
  simp only [Blog.commentCountFor]
  simp only [List.mem_map] at hp
  obtain ⟨q, hq, hqp⟩ := hp
  by_cases hqid : q.ID = c.PostID
  · rw [if_pos hqid] at hqp
    subst hqp
    by_cases hz :
        ((db.comments.filter fun c2 => c2.ID ≠ c.ID).filter
          fun c3 => c3.PostID = c.PostID).length = 0
    · rw [if_pos hz]
      refine ⟨rfl, by rw [hz]; show ("无评论" : String) = "有评论" ↔ 0 < 0; decide⟩
    · rw [if_neg hz]
      exact ⟨rfl, fun _ => Nat.pos_of_ne_zero hz, fun _ => rfl⟩
  · rw [if_neg hqid] at hqp
    subst hqp
    exact absurd hid hqid

/-- C1 witness: deleting the second of two comments on post 1 leaves one
comment, and the post's recomputed status is HasComments iff that remaining
count is positive. -/
theorem deleteComment_status_matches_count_witness :
    ({ Blog.exPostA with CommentStatus := "有评论" } : Blog.Post).CommentStatus = "有评论" ↔
      0 < Blog.commentCountFor (Blog.deleteComment Blog.exDB2 Blog.exComment2).1
            Blog.exComment2.PostID :=
  (deleteComment_status_matches_count Blog.exDB2 Blog.exComment2
    { Blog.exPostA with CommentStatus := "有评论" } (by decide) (by decide)).2

/-- C2 counterexample: the claim quantifies over any sequence of committed
mutations, but the code has no post-deletion decrement. Starting from user 1
with article_count 0, creating post P1 and then deleting it leaves
article_count at 1 while the recount of the user's posts is 0. -/
theorem articleCount_stale_after_post_delete :
    Blog.userArticleCount (Blog.deletePost (Blog.createPosts Blog.exDB0 [Blog.exPostA]) 1) 1 =
      some 1 ∧
    Blog.postCountFor (Blog.deletePost (Blog.createPosts Blog.exDB0 [Blog.exPostA]) 1) 1 = 0 := by
  exact ⟨by decide, by decide⟩

/-- C2 amended: after any sequence of committed Post creations — in
particular N creations for a user that starts with article_count 0 and owns
no posts — every user's article_count equals the number of post rows whose
UserID is that user's id, provided the state before the sequence already
satisfied that equality (which a fresh user with count 0 does). Sequences
containing Post deletions are excluded: no decrement trigger exists. -/
theorem articleCount_matches_recount (db : Blog.DB) (ps : List Blog.Post)
    (h : Blog.userCountsConsistent db) :
    Blog.userCountsConsistent (Blog.createPosts db ps) := by
  induction ps generalizing db with
  | nil => exact h
  | cons p ps ih => exact ih _ (Blog.userCountsConsistent_createPost db p h)

/-- C2 witness: two committed post creations for user 1 starting from the
consistent fixture leave every article_count equal to its recount. -/
theorem articleCount_matches_recount_witness :
    Blog.userCountsConsistent (Blog.createPosts Blog.exDB0 [Blog.exPostA, Blog.exPostB]) :=
  articleCount_matches_recount Blog.exDB0 [Blog.exPostA, Blog.exPostB] (by decide)

/-- C5 counterexample: creating comment C1 on post P1 (whose status is the
insert default NoComments) fires no hook, so afterwards the post referenced
by a comment still carries status 无评论, which differs from 有评论
(HasComments) — the claimed invariant does not hold after a committed comment
creation. -/
theorem createComment_leaves_noComments :
    (Blog.createComment Blog.exDB1 Blog.exComment1).posts.map Blog.Post.CommentStatus =
      ["无评论"] ∧
    0 < Blog.commentCountFor (Blog.createComment Blog.exDB1 Blog.exComment1) 1 ∧
    ("无评论" : String) ≠ "有评论" :=
  ⟨rfl, by decide, by decide⟩

/-- C5 amended: creating a comment changes no post row and no user row (the
Comment model has no creation hook), so the owning post's comment_status is
whatever it was before the creation — in particular it remains NoComments for
a post that never had a deletion recompute it, and the HasComments
iff-invariant is established only by the Comment-deletion hook. -/
theorem createComment_changes_no_status (db : Blog.DB) (c : Blog.Comment) :
    (Blog.createComment db c).posts = db.posts ∧
    (Blog.createComment db c).users = db.users ∧
    (Blog.createComment db c).comments = db.comments ++ [c] :=
  ⟨rfl, rfl, rfl⟩

/-- C6: comment creation, post deletion and user deletion run no
counter-maintenance hook: comment creation leaves the users and posts tables
untouched; post deletion leaves users and comments untouched and every
surviving post row (with its comment_status) is exactly a row of the prior
state; user deletion leaves posts and comments untouched and every surviving
user row (with its article_count) is exactly a row of the prior state. -/
theorem no_counter_triggers_on_other_ops (db : Blog.DB) (c : Blog.Comment)
    (pid uid : Nat) :
    (Blog.createComment db c).users = db.users ∧
    (Blog.createComment db c).posts = db.posts ∧
    (Blog.deletePost db pid).users = db.users ∧
    (Blog.deletePost db pid).comments = db.comments ∧
    (∀ p ∈ (Blog.deletePost db pid).posts, p ∈ db.posts) ∧
    (Blog.deleteUser db uid).posts = db.posts ∧
    (Blog.deleteUser db uid).comments = db.comments ∧
    (∀ u ∈ (Blog.deleteUser db uid).users, u ∈ db.users) := by
  refine ⟨rfl, rfl, rfl, rfl, ?_, rfl, rfl, ?_⟩
  · exact fun p hp => List.mem_of_mem_filter hp
  · exact fun u hu => List.mem_of_mem_filter hu

/-- C6 witness: instantiation of the frame property on the fixture state. -/
theorem no_counter_triggers_on_other_ops_witness :
    (Blog.createComment Blog.exDB1 Blog.exComment1).users = Blog.exDB1.users :=
  (no_counter_triggers_on_other_ops Blog.exDB1 Blog.exComment1 1 1).1

/-- C10 counterexample: under the foreign-key constraint that AutoMigrate
creates on posts.user_id, inserting a post whose UserID (99) matches no user
row fails at the insert and rolls back — the state is unchanged (the post is
absent) and a constraint error is surfaced, contrary to the claimed
successful commit with no error. -/
theorem createPost_dangling_user_rejected :
    Blog.createPostFK false Blog.exDB0 Blog.exPostDangling =
      (Blog.exDB0,
       some "Cannot add or update a child row: a foreign key constraint fails") := rfl

/-- C10 amended: a post creation whose UserID matches no user row is rejected
by the foreign-key constraint at the insert itself — the transaction rolls
back with a constraint error and the state (post rows and every user's
article_count) is unchanged — while the counter-maintenance path itself
surfaces no error: the hook's zero-row article_count update, run against a
state with no matching user, succeeds and modifies nothing. -/
theorem createPost_dangling_user_constraint (db : Blog.DB) (p : Blog.Post)
    (h : ∀ u ∈ db.users, u.ID ≠ p.UserID) :
    Blog.createPostFK false db p =
      (db, some "Cannot add or update a child row: a foreign key constraint fails") ∧
    Blog.Post.AfterCreate false p db = Except.ok db := by
  have hex : Blog.userExists db p.UserID = false := by
    simp only [Blog.userExists, List.any_eq_false, decide_eq_true_eq]
    exact fun u hu => h u hu
  have hmapid : (db.users.map fun u =>
      if u.ID = p.UserID then { u with ArticleCount := u.ArticleCount + 1 } else u) =
        db.users := by
    have hcongr := List.map_congr_left (l := db.users)
      (f := fun u => if u.ID = p.UserID then { u with ArticleCount := u.ArticleCount + 1 } else u)
      (g := id) fun u hmem => by simp [h u hmem]
    simpa using hcongr
  constructor
  · simp only [Blog.createPostFK, Blog.insertPostStmt, hex, Bool.false_eq_true, if_false]
  · show Except.ok
        ({ db with users := db.users.map fun u =>
             if u.ID = p.UserID then { u with ArticleCount := u.ArticleCount + 1 } else u } :
          Blog.DB) = Except.ok db
    rw [hmapid]

/-- C10 witness: creating a post owned by user id 99 in a database whose only
user has id 1 is rejected with the constraint error, and the hook alone, run
on that state, reports no error and changes nothing. -/
theorem createPost_dangling_user_constraint_witness :
    Blog.createPostFK false Blog.exDB0 Blog.exPostDangling =
      (Blog.exDB0,
       some "Cannot add or update a child row: a foreign key constraint fails") ∧
    Blog.Post.AfterCreate false Blog.exPostDangling Blog.exDB0 = Except.ok Blog.exDB0 :=
  createPost_dangling_user_constraint Blog.exDB0 Blog.exPostDangling (by decide)

/-- C7: on a non-empty employees table the limit-1 query returns exactly one
employee and that employee carries the maximum salary (the model fixes one
arbitrary order among ties), while the ties-aware variant contains exactly
the employees whose salary is maximal — with a tie for the maximum, both tied
rows satisfy the membership characterization and the limit-1 query still
yields a single one of them. -/
theorem highestPaid_max_and_ties (emps : List Emp.Employee) (h : emps ≠ []) :
    (∃ e, Emp.getHighestPaidEmployee emps = Except.ok e ∧ e ∈ emps ∧
      ∀ e2 ∈ emps, e2.Salary ≤ e.Salary) ∧
    (∀ e, e ∈ Emp.getAllHighestPaidEmployees emps ↔
      (e ∈ emps ∧ ∀ e2 ∈ emps, e2.Salary ≤ e.Salary)) := by
  have htrans : ∀ (a b c : Emp.Employee), Emp.salaryDescLe a b = true →
      Emp.salaryDescLe b c = true → Emp.salaryDescLe a c = true := by
    intro a b c hab hbc
    simp only [Emp.salaryDescLe, decide_eq_true_eq] at *
    omega
  have htotal : ∀ (a b : Emp.Employee),
      (Emp.salaryDescLe a b || Emp.salaryDescLe b a) = true := by
    intro a b
    simp only [Emp.salaryDescLe, Bool.or_eq_true, decide_eq_true_eq]
    exact le_total b.Salary a.Salary
  have hperm := List.mergeSort_perm emps Emp.salaryDescLe
  constructor
  · have hne : emps.mergeSort Emp.salaryDescLe ≠ [] := by
      intro hnil
      apply h
      have hlen := hperm.length_eq
      rw [hnil] at hlen
      exact List.length_eq_zero.mp hlen.symm
    obtain ⟨e, tl, heq⟩ := List.exists_cons_of_ne_nil hne
    refine ⟨e, ?_, ?_, ?_⟩
    · simp [Emp.getHighestPaidEmployee, heq]
    · exact hperm.mem_iff.mp (by simp [heq])
    · intro e2 he2
      have he2m : e2 ∈ emps.mergeSort Emp.salaryDescLe := hperm.mem_iff.mpr he2
      rw [heq] at he2m
      rcases List.mem_cons.mp he2m with h1 | h1
      · exact le_of_eq (congrArg Emp.Employee.Salary h1)
      · have hpair := List.sorted_mergeSort htrans htotal emps
        rw [heq] at hpair
        have hrel := List.rel_of_pairwise_cons hpair h1
        simpa [Emp.salaryDescLe] using hrel
  · intro e
    rcases hmax : Emp.maxSalary emps with _ | m
    · exfalso
      apply h
      simp only [Emp.maxSalary] at hmax
      have hmapnil : emps.map Emp.Employee.Salary = [] := List.max?_eq_none_iff.mp hmax
      simpa using hmapnil
    · simp only [Emp.maxSalary] at hmax
      haveI : Std.Antisymm fun x1 x2 : Int => x1 ≤ x2 :=
        ⟨fun h1 h2 => le_antisymm h1 h2⟩
      have hchar := (List.max?_eq_some_iff (a := m)
        (fun a => le_refl a) (fun a b => max_choice a b) (fun a b c => max_le_iff)).mp hmax
      obtain ⟨hmem, hub⟩ := hchar
      simp only [List.mem_map] at hmem
      obtain ⟨e3, he3, he3s⟩ := hmem
      constructor
      · intro hein
        simp only [Emp.getAllHighestPaidEmployees, Emp.maxSalary, hmax] at hein
        rcases List.mem_filter.mp hein with ⟨heemps, hsal⟩
        have hsal2 : e.Salary = m := by simpa using hsal
        refine ⟨heemps, fun e2 he2 => ?_⟩
        rw [hsal2]
        exact hub e2.Salary (List.mem_map.mpr ⟨e2, he2, rfl⟩)
      · rintro ⟨heemps, hmax2⟩
        simp only [Emp.getAllHighestPaidEmployees, Emp.maxSalary, hmax]
        apply List.mem_filter.mpr
        refine ⟨heemps, ?_⟩
        have h1 : e.Salary ≤ m := hub e.Salary (List.mem_map.mpr ⟨e, heemps, rfl⟩)
        have h2 : m ≤ e.Salary := he3s ▸ hmax2 e3 he3
        simpa using le_antisymm h1 h2

/-- C7 witness: the three-employee fixture with a salary tie instantiates the
characterization of both queries. -/
theorem highestPaid_max_and_ties_witness :
    (∃ e, Emp.getHighestPaidEmployee Emp.exEmps = Except.ok e ∧ e ∈ Emp.exEmps ∧
      ∀ e2 ∈ Emp.exEmps, e2.Salary ≤ e.Salary) ∧
    (∀ e, e ∈ Emp.getAllHighestPaidEmployees Emp.exEmps ↔
      (e ∈ Emp.exEmps ∧ ∀ e2 ∈ Emp.exEmps, e2.Salary ≤ e.Salary)) :=
  highestPaid_max_and_ties Emp.exEmps (by decide)

/-- C8: the department lookup returns exactly the employees whose department
equals the requested value when at least one row matches, and reports an
error — rather than an empty list — when no row matches. -/
theorem byDepartment_all_or_error (emps : List Emp.Employee) (department : String) :
    ((emps.filter fun e => e.Department = department) ≠ [] →
      Emp.getEmployeesByDepartment emps department =
        Except.ok (emps.filter fun e => e.Department = department)) ∧
    ((emps.filter fun e => e.Department = department) = [] →
      Emp.getEmployeesByDepartment emps department =
        Except.error ("部门 " ++ department ++ " 没有员工")) := by
  constructor
  · intro hne
    simp only [Emp.getEmployeesByDepartment]
    rw [if_neg fun hl => hne (List.length_eq_zero.mp hl)]
  · intro hnil
    simp only [Emp.getEmployeesByDepartment]
    rw [hnil]
    rfl

/-- C8 witness: the fixture has rows for 技术部, and the lookup returns
exactly the filtered rows. -/
theorem byDepartment_all_or_error_witness :
    Emp.getEmployeesByDepartment Emp.exEmps "技术部" =
      Except.ok (Emp.exEmps.filter fun e => e.Department = "技术部") :=
  (byDepartment_all_or_error Emp.exEmps "技术部").1 (by decide)

/-- C9 counterexample: with DB_USER set to alice but DB_PASS unset, initDB
discards the set value — the resolved user is root, not alice — so a set
parameter is not always used exactly as given. -/
theorem dbUser_discarded_when_pass_unset :
    (Conn.resolveConfig "blog_db"
      { DB_USER := "alice", DB_PASS := "", DB_HOST := "", DB_PORT := "",
        DB_NAME := "" }).dbUser = "root" ∧
    ("root" : String) ≠ "alice" :=
  ⟨rfl, by decide⟩

/-- C9 amended: host, port and database name are defaulted individually —
an unset one takes localhost, 3306 or the file's placeholder name and a set
one is used exactly as given — while user and password are defaulted as a
pair: both are used as given only when both are set, and if either is unset
both fall back to the placeholder credentials root/password; the DSN is
built from exactly the resolved parameters. -/
theorem resolveConfig_defaults (d : String) (env : Conn.Env) :
    ((env.DB_USER ≠ "" ∧ env.DB_PASS ≠ "") →
      ((Conn.resolveConfig d env).dbUser = env.DB_USER ∧
       (Conn.resolveConfig d env).dbPass = env.DB_PASS)) ∧
    ((env.DB_USER = "" ∨ env.DB_PASS = "") →
      ((Conn.resolveConfig d env).dbUser = "root" ∧
       (Conn.resolveConfig d env).dbPass = "password")) ∧
    (Conn.resolveConfig d env).dbHost =
      (if env.DB_HOST = "" then "localhost" else env.DB_HOST) ∧
    (Conn.resolveConfig d env).dbPort =
      (if env.DB_PORT = "" then "3306" else env.DB_PORT) ∧
    (Conn.resolveConfig d env).dbName =
      (if env.DB_NAME = "" then d else env.DB_NAME) ∧
    Conn.initDBDsn env = Conn.gormDSN (Conn.resolveConfig "blog_db" env) := by
  refine ⟨?_, ?_, rfl, rfl, rfl, rfl⟩
  · rintro ⟨hu, hp⟩
    have hnc : ¬(env.DB_USER = "" ∨ env.DB_PASS = "") := by
      rintro (h1 | h2)
      exacts [hu h1, hp h2]
    constructor
    · show (if env.DB_USER = "" ∨ env.DB_PASS = "" then ("root", "password")
            else (env.DB_USER, env.DB_PASS)).1 = env.DB_USER
      rw [if_neg hnc]
    · show (if env.DB_USER = "" ∨ env.DB_PASS = "" then ("root", "password")
            else (env.DB_USER, env.DB_PASS)).2 = env.DB_PASS
      rw [if_neg hnc]
  · intro hc
    constructor
    · show (if env.DB_USER = "" ∨ env.DB_PASS = "" then ("root", "password")
            else (env.DB_USER, env.DB_PASS)).1 = "root"
      rw [if_pos hc]
    · show (if env.DB_USER = "" ∨ env.DB_PASS = "" then ("root", "password")
            else (env.DB_USER, env.DB_PASS)).2 = "password"
      rw [if_pos hc]

/-- C9 witness: with every variable set, user and password are taken as
given. -/
theorem resolveConfig_defaults_witness :
    (Conn.resolveConfig "blog_db"
      { DB_USER := "u1", DB_PASS := "p1", DB_HOST := "h1", DB_PORT := "1234",
        DB_NAME := "n1" }).dbUser = "u1" ∧
    (Conn.resolveConfig "blog_db"
      { DB_USER := "u1", DB_PASS := "p1", DB_HOST := "h1", DB_PORT := "1234",
        DB_NAME := "n1" }).dbPass = "p1" :=
  (resolveConfig_defaults "blog_db"
    { DB_USER := "u1", DB_PASS := "p1", DB_HOST := "h1", DB_PORT := "1234",
      DB_NAME := "n1" }).1 (by decide)
